import Mathlib

/-!
Verification of the svelte-dev-helper HMR proxy core.

The repository keeps several historical iterations of the same mechanism.
Each model below is a shallow embedding of one concrete iteration, named
after the function it embeds; JavaScript objects are modelled by `JsVal`,
thrown exceptions by `Except`, and in-place mutation by explicit state
passing.  Object identity (references handed to external code) is modelled
by natural-number tags that the operations thread through unchanged unless
the source reassigns the corresponding variable.
-/

/-! Section: a tiny JavaScript value model -/

/-- JavaScript values, restricted to what the proxy code manipulates:
`undefined`, numbers, strings and plain objects (ordered field lists). -/
inductive JsVal where
  | undefined
  | num (n : Int)
  | str (s : String)
  | obj (fields : List (String × JsVal))

/-- First-binding lookup in an object field list (JS property access order:
we never create duplicate keys, the head binding wins like a JS property). -/
def lookupKV : List (String × JsVal) → String → Option JsVal
  | [], _ => none
  | kv :: rest, k => if kv.1 = k then some kv.2 else lookupKV rest k

/-- Set a key in a field list: replace the existing binding, else append. -/
def setKV (t : List (String × JsVal)) (k : String) (v : JsVal) :
    List (String × JsVal) :=
  if (lookupKV t k).isSome then
    t.map (fun kv => if kv.1 = k then (k, v) else kv)
  else t ++ [(k, v)]

/-- JavaScript truthiness for the values we model. -/
def truthy : JsVal → Bool
  | .undefined => false
  | .num n => n != 0
  | .str s => s != ""
  | .obj _ => true

/-- Property read `target[key]`: `undefined` on missing keys and on
non-object values (reads on such values are always guarded in the source). -/
def jsGet : JsVal → String → JsVal
  | .obj fields, k => (lookupKV fields k).getD .undefined
  | _, _ => .undefined

/-- Property write `target[key] = v` (objects only; every write in the
source is guarded by a truthiness test on the receiver). -/
def jsSetField : JsVal → String → JsVal → JsVal
  | .obj fields, k, v => .obj (setKV fields k v)
  | t, _, _ => t

/-- The JavaScript `a && b` expression. -/
def jsAnd (a b : JsVal) : JsVal := if truthy a then b else a

/-- A thrown JavaScript error (`new Error(msg)`). -/
structure JsError where
  msg : String
deriving Repr, DecidableEq

/-! Section: `config.js`, `configure` / `getConfig` (claim C9)

```js
const proxyOptions = { noPreserveState: false };
export const configure = options => { Object.assign(proxyOptions, options); };
export const getConfig = () => proxyOptions;
```

The module state is the single `proxyOptions` table; `tableRef` is the
identity of that object (what `getConfig` hands out). -/

/-- Semantics of `Object.assign(target, o)`: fold the source's bindings into the target,
in order, mutating the target in place. -/
def objectAssign (t o : List (String × JsVal)) : List (String × JsVal) :=
  o.foldl (fun acc kv => setKV acc kv.1 kv.2) t

/-- The `config.js` module state: the (only) options table and its object
identity. -/
structure ConfigState where
  tableRef : Nat
  table : List (String × JsVal)

/-- The initial `proxyOptions` table. -/
def initialProxyOptions : ConfigState :=
  { tableRef := 0, table := [("noPreserveState", .num 0)] }

/-- The function `configure(options)`, i.e. `Object.assign(proxyOptions, options)`: mutates
the table in place, never rebinds `proxyOptions`. -/
def configure (options : List (String × JsVal)) (s : ConfigState) :
    ConfigState :=
  { s with table := objectAssign s.table options }

/-- The function `getConfig()` returns the `proxyOptions` object itself (its
reference). -/
def getConfig (s : ConfigState) : Nat := s.tableRef

/-! Section: `copyComponentMethods` (claim C10)

```js
const handledMethods = ['$destroy'];
const forwardedMethods = ['$set', '$on'];
const copyComponentMethods = (proxy, cmp) => {
  const methods = Object.getOwnPropertyNames(Object.getPrototypeOf(cmp));
  methods.forEach(method => {
    if (!handledMethods.includes(method) && !forwardedMethods.includes(method)) {
      proxy[method] = function() { return cmp[method].apply(cmp, arguments); };
    }
  });
};
```
-/

def handledMethods : List String := ["$destroy"]

def forwardedMethods : List String := ["$set", "$on"]

/-- What a property slot of the proxy object can hold. -/
inductive PSlot where
  /-- no such property -/
  | missing
  /-- the proxy's own augmented `$destroy` closure -/
  | augmentedDestroy
  /-- a method relayed through `relayCalls` (`$set` / `$on`) -/
  | relayed (name : String)
  /-- a forwarder `function() { return cmp[method].apply(cmp, arguments) }`
  bound to the component instance `cmpId` -/
  | mirrored (cmpId : Nat) (name : String)
deriving Repr, DecidableEq

/-- The proxy object's property table. -/
def ProxyTable : Type := String → PSlot

/-- Model of `copyComponentMethods(proxy, cmp)`, where `methods` is the list of own
property names of `cmp`'s prototype and `cmpId` is `cmp`'s identity. -/
def copyComponentMethods (cmpId : Nat) (methods : List String)
    (proxy : ProxyTable) : ProxyTable :=
  methods.foldl
    (fun p method =>
      if !(handledMethods.contains method)
          && !(forwardedMethods.contains method) then
        fun x => if x = method then .mirrored cmpId method else p x
      else p)
    proxy

/-! Section: `relayProperties` and `get$$` (claim C5)

```js
const relayProperties = (getTarget, keys) => {
  const dest = {};
  keys.forEach(key => {
    Object.defineProperty(dest, key, {
      get() {
        const target = getTarget();
        return target && target[key];
      },
      set(value) {
        const target = getTarget();
        if (target && target.$$) {
          target.$$[key] = value;
        }
      }
    });
  });
  return dest;
};
const get$$ = () => cmp && cmp.$$;
```

The getter/setter bodies are modelled as functions of the value the
`getTarget` thunk resolves to at access time. -/

/-- The fixed relayed key set (`$$Properties` in the source). -/
def dollarDollarProperties : List String :=
  ["ctx", "props", "update", "not_equal", "bound", "on_mount", "on_destroy",
   "before_render", "after_render", "context", "callbacks", "dirty"]

/-- The relay getter body: `return target && target[key]`. -/
def relayPropertyGet (target : JsVal) (key : String) : JsVal :=
  jsAnd target (jsGet target key)

/-- The relay setter body: `if (target && target.$$) target.$$[key] = value`.
Returns the (possibly) updated target object. -/
def relayPropertySet (target : JsVal) (key : String) (value : JsVal) :
    JsVal :=
  if truthy target && truthy (jsGet target "$$") then
    jsSetField target "$$" (jsSetField (jsGet target "$$") key value)
  else target

/-- The resolver `get$$ = () => cmp && cmp.$$` that the `$$` property relay is
constructed with. -/
def getDollarDollar (cmp : JsVal) : JsVal := jsAnd cmp (jsGet cmp "$$")

/-! Section: `restoreState` (claim C6)

Two iterations coexist in the repository.  The strict one:

```js
const restoreState = (cmp, restore) => {
  if (!restore) { throw new Error('Illegal state'); }
  const { callbacks } = restore;
  if (callbacks) { cmp.$$.callbacks = callbacks; }
  if (restore.props) { cmp.$set(restore.props); }
  cmp.$update();
};
```

and the tolerant one from the `initProxy` iteration of `proxy.js`:

```js
const restoreState = (cmp, restore) => {
  if (!restore) { return; }
  const { callbacks, props } = restore;
  if (callbacks) { cmp.$$.callbacks = callbacks; }
  if (props) { cmp.$inject_state(restore.props); }
};
```
-/

/-- A captured state snapshot `{ props, callbacks }`. -/
structure SnapshotE where
  props : JsVal
  callbacks : JsVal

/-- The component-instance surface `restoreState` touches.  The external
methods `$set` / `$update` / `$inject_state` are a fixed outside contract;
we record their invocations. -/
structure CmpE where
  /-- the `cmp.$$.callbacks` listener table -/
  callbacks : JsVal
  /-- arguments of `cmp.$set(...)` calls, in order -/
  setCalls : List JsVal
  /-- number of `cmp.$update()` calls -/
  updateCalls : Nat
  /-- arguments of `cmp.$inject_state(...)` calls, in order -/
  injectCalls : List JsVal

/-- The strict `restoreState` (throws `'Illegal state'` on a missing
snapshot). -/
def restoreState3 (cmp : CmpE) (restore : Option SnapshotE) :
    Except JsError CmpE :=
  match restore with
  | none => .error ⟨"Illegal state"⟩
  | some r =>
    let cmp := if truthy r.callbacks then { cmp with callbacks := r.callbacks }
               else cmp
    let cmp := if truthy r.props then { cmp with setCalls := cmp.setCalls ++ [r.props] }
               else cmp
    .ok { cmp with updateCalls := cmp.updateCalls + 1 }

/-- The tolerant `restoreState` of the `initProxy` iteration (silently
returns on a missing snapshot). -/
def restoreStateHmr (cmp : CmpE) (restore : Option SnapshotE) :
    Except JsError CmpE :=
  match restore with
  | none => .ok cmp
  | some r =>
    let cmp := if truthy r.callbacks then { cmp with callbacks := r.callbacks }
               else cmp
    let cmp := if truthy r.props then { cmp with injectCalls := cmp.injectCalls ++ [r.props] }
               else cmp
    .ok cmp

/-! Section: lemmas about the object-field primitives -/

theorem lookupKV_map_replace (t : List (String × JsVal)) (k : String)
    (v : JsVal) :
    lookupKV (t.map (fun kv => if kv.1 = k then (k, v) else kv)) k
      = (lookupKV t k).map (fun _ => v) := by
  induction t with
  | nil => simp [lookupKV]
  | cons kv rest ih =>
    by_cases h : kv.1 = k
    · simp [lookupKV, h]
    · simp [lookupKV, h, ih]

theorem lookupKV_map_replace_other (t : List (String × JsVal))
    (k k' : String) (v : JsVal) (h : k' ≠ k) :
    lookupKV (t.map (fun kv => if kv.1 = k then (k, v) else kv)) k'
      = lookupKV t k' := by
  induction t with
  | nil => simp [lookupKV]
  | cons kv rest ih =>
    by_cases hk : kv.1 = k
    · have : ¬ k = k' := fun hh => h hh.symm
      simp [lookupKV, hk, this, ih]
    · by_cases hk' : kv.1 = k'
      · simp [lookupKV, hk, hk', h]
      · simp [lookupKV, hk, hk', ih]

theorem lookupKV_append (t s : List (String × JsVal)) (k : String) :
    lookupKV (t ++ s) k
      = match lookupKV t k with
        | some v => some v
        | none => lookupKV s k := by
  induction t with
  | nil => simp [lookupKV]
  | cons kv rest ih =>
    by_cases h : kv.1 = k
    · simp [lookupKV, h]
    · simp [lookupKV, h, ih]

theorem lookupKV_setKV_self (t : List (String × JsVal)) (k : String)
    (v : JsVal) : lookupKV (setKV t k v) k = some v := by
  unfold setKV
  by_cases h : (lookupKV t k).isSome
  · rw [if_pos h, lookupKV_map_replace]
    cases hl : lookupKV t k with
    | none => rw [hl] at h; simp at h
    | some w => simp
  · rw [if_neg h, lookupKV_append]
    cases hl : lookupKV t k with
    | none => simp [lookupKV]
    | some w => rw [hl] at h; simp at h

theorem lookupKV_setKV_other (t : List (String × JsVal)) (k k' : String)
    (v : JsVal) (h : k' ≠ k) :
    lookupKV (setKV t k v) k' = lookupKV t k' := by
  unfold setKV
  by_cases hs : (lookupKV t k).isSome
  · rw [if_pos hs, lookupKV_map_replace_other t k k' v h]
  · rw [if_neg hs, lookupKV_append]
    cases hl : lookupKV t k' with
    | some w => simp
    | none =>
      have : ¬ k = k' := fun hh => h hh.symm
      simp [lookupKV, this]

theorem lookupKV_objectAssign_not_mem (o t : List (String × JsVal))
    (k : String) (h : k ∉ o.map Prod.fst) :
    lookupKV (objectAssign t o) k = lookupKV t k := by
  induction o generalizing t with
  | nil => rfl
  | cons kv rest ih =>
    simp only [List.map_cons, List.mem_cons] at h
    push_neg at h
    have step : objectAssign t (kv :: rest) = objectAssign (setKV t kv.1 kv.2) rest := rfl
    rw [step, ih _ h.2]
    exact lookupKV_setKV_other t kv.1 k kv.2 h.1

theorem lookupKV_objectAssign_mem (o t : List (String × JsVal))
    (k : String) (v : JsVal) (hnd : (o.map Prod.fst).Nodup)
    (h : lookupKV o k = some v) :
    lookupKV (objectAssign t o) k = some v := by
  induction o generalizing t with
  | nil => simp [lookupKV] at h
  | cons kv rest ih =>
    simp only [List.map_cons, List.nodup_cons] at hnd
    by_cases hk : kv.1 = k
    · have hv : v = kv.2 := by
        simp [lookupKV, hk] at h; exact h.symm
      have hnot : k ∉ rest.map Prod.fst := hk ▸ hnd.1
      have step : objectAssign t (kv :: rest) = objectAssign (setKV t kv.1 kv.2) rest := rfl
      rw [step, lookupKV_objectAssign_not_mem _ _ _ hnot, hk,
        lookupKV_setKV_self, hv]
    · have hrest : lookupKV rest k = some v := by
        simpa [lookupKV, hk] using h
      have step : objectAssign t (kv :: rest) = objectAssign (setKV t kv.1 kv.2) rest := rfl
      rw [step]
      exact ih (setKV t kv.1 kv.2) hnd.2 hrest

/-- C9: `configure(options)` merges the given options into the single global
options table in place: every key present in `options` ends up with its
value from `options`, every other key keeps its previous value, and
`getConfig()` returns the same table object (same reference) before and
after the call. -/
theorem C9_configure_merges_in_place (s : ConfigState)
    (o : List (String × JsVal)) (hnd : (o.map Prod.fst).Nodup) :
    getConfig (configure o s) = getConfig s
    ∧ (configure o s).tableRef = s.tableRef
    ∧ (∀ k v, lookupKV o k = some v →
        lookupKV (configure o s).table k = some v)
    ∧ (∀ k, k ∉ o.map Prod.fst →
        lookupKV (configure o s).table k = lookupKV s.table k) := by
  refine ⟨rfl, rfl, ?_, ?_⟩
  · intro k v h
    exact lookupKV_objectAssign_mem o s.table k v hnd h
  · intro k h
    exact lookupKV_objectAssign_not_mem o s.table k h

/-- Witness for C9 at a concrete configuration call. -/
theorem C9_configure_merges_in_place_witness :
    getConfig (configure [("native", .num 1)] initialProxyOptions)
      = getConfig initialProxyOptions
    ∧ lookupKV (configure [("native", .num 1)] initialProxyOptions).table
        "native" = some (.num 1)
    ∧ lookupKV (configure [("native", .num 1)] initialProxyOptions).table
        "noPreserveState" = lookupKV initialProxyOptions.table "noPreserveState" := by
  have h := C9_configure_merges_in_place initialProxyOptions
    [("native", .num 1)] (by simp)
  exact ⟨h.1, h.2.2.1 "native" (.num 1) (by simp [lookupKV]),
    h.2.2.2 "noPreserveState" (by simp)⟩

/-! Section: theorems about `copyComponentMethods` (claim C10) -/

theorem copyComponentMethods_skips (cmpId : Nat) (ms : List String)
    (proxy : ProxyTable) (m : String)
    (h : m ∈ handledMethods ∨ m ∈ forwardedMethods) :
    copyComponentMethods cmpId ms proxy m = proxy m := by
  induction ms generalizing proxy with
  | nil => rfl
  | cons method rest ih =>
    show copyComponentMethods cmpId rest
      (if !(handledMethods.contains method)
          && !(forwardedMethods.contains method) then
        fun x => if x = method then .mirrored cmpId method else proxy x
      else proxy) m = proxy m
    by_cases hc : !(handledMethods.contains method)
        && !(forwardedMethods.contains method)
    · rw [if_pos hc, ih]
      have hne : m ≠ method := by
        intro he
        subst he
        rcases h with h | h
        · simp [List.elem_iff] at hc
          exact absurd h hc.1
        · simp [List.elem_iff] at hc
          exact absurd h hc.2
      simp [hne]
    · rw [if_neg hc, ih]

theorem copyComponentMethods_untouched (cmpId : Nat) (ms : List String)
    (proxy : ProxyTable) (m : String) (h : m ∉ ms) :
    copyComponentMethods cmpId ms proxy m = proxy m := by
  induction ms generalizing proxy with
  | nil => rfl
  | cons method rest ih =>
    have hne : m ≠ method := fun he => h (he ▸ List.mem_cons_self method rest)
    have hrest : m ∉ rest := fun hr => h (List.mem_cons_of_mem method hr)
    show copyComponentMethods cmpId rest
      (if !(handledMethods.contains method)
          && !(forwardedMethods.contains method) then
        fun x => if x = method then .mirrored cmpId method else proxy x
      else proxy) m = proxy m
    by_cases hc : !(handledMethods.contains method)
        && !(forwardedMethods.contains method)
    · rw [if_pos hc, ih _ hrest]
      simp [hne]
    · rw [if_neg hc, ih _ hrest]

theorem copyComponentMethods_mirrors (cmpId : Nat) (ms : List String)
    (proxy : ProxyTable) (m : String) (hm : m ∈ ms)
    (h1 : m ∉ handledMethods) (h2 : m ∉ forwardedMethods) :
    copyComponentMethods cmpId ms proxy m = .mirrored cmpId m := by
  induction ms generalizing proxy with
  | nil => cases hm
  | cons method rest ih =>
    show copyComponentMethods cmpId rest
      (if !(handledMethods.contains method)
          && !(forwardedMethods.contains method) then
        fun x => if x = method then .mirrored cmpId method else proxy x
      else proxy) m = .mirrored cmpId m
    by_cases hr : m ∈ rest
    · by_cases hc : !(handledMethods.contains method)
          && !(forwardedMethods.contains method)
      · rw [if_pos hc]; exact ih _ hr
      · rw [if_neg hc]; exact ih _ hr
    · have hme : m = method := by
        rcases List.mem_cons.mp hm with h | h
        · exact h
        · exact absurd h hr
      subst hme
      have hc : (!(handledMethods.contains m)
          && !(forwardedMethods.contains m)) = true := by
        simp [List.elem_iff, h1, h2]
      rw [if_pos hc, copyComponentMethods_untouched cmpId rest _ m hr]
      simp

/-- C10: `copyComponentMethods` mirrors onto the proxy every own prototype
method of the freshly created internal instance except exactly `$destroy`,
`$set` and `$on`; those three slots are never overwritten, and the
skip-list is preserved across any sequence of (re)constructions. -/
theorem C10_copy_component_methods_skiplist (cmpId : Nat) (ms : List String)
    (proxy : ProxyTable) (m : String) (hm : m ∈ ms)
    (hd : m ≠ "$destroy") (hs : m ≠ "$set") (ho : m ≠ "$on") :
    copyComponentMethods cmpId ms proxy m = .mirrored cmpId m
    ∧ copyComponentMethods cmpId ms proxy "$destroy" = proxy "$destroy"
    ∧ copyComponentMethods cmpId ms proxy "$set" = proxy "$set"
    ∧ copyComponentMethods cmpId ms proxy "$on" = proxy "$on"
    ∧ (∀ constructions : List (Nat × List String),
        (constructions.foldl (fun p c => copyComponentMethods c.1 c.2 p)
            proxy) "$destroy" = proxy "$destroy"
        ∧ (constructions.foldl (fun p c => copyComponentMethods c.1 c.2 p)
            proxy) "$set" = proxy "$set"
        ∧ (constructions.foldl (fun p c => copyComponentMethods c.1 c.2 p)
            proxy) "$on" = proxy "$on") := by
  refine ⟨?_, ?_, ?_, ?_, ?_⟩
  · exact copyComponentMethods_mirrors cmpId ms proxy m hm
      (by simp [handledMethods, hd]) (by simp [forwardedMethods, hs, ho])
  · exact copyComponentMethods_skips cmpId ms proxy _ (.inl (by simp [handledMethods]))
  · exact copyComponentMethods_skips cmpId ms proxy _ (.inr (by simp [forwardedMethods]))
  · exact copyComponentMethods_skips cmpId ms proxy _ (.inr (by simp [forwardedMethods]))
  · intro constructions
    induction constructions generalizing proxy with
    | nil => exact ⟨rfl, rfl, rfl⟩
    | cons c rest ih =>
      have h' := ih (copyComponentMethods c.1 c.2 proxy)
      refine ⟨?_, ?_, ?_⟩
      · rw [List.foldl_cons, h'.1,
          copyComponentMethods_skips c.1 c.2 proxy _ (.inl (by simp [handledMethods]))]
      · rw [List.foldl_cons, h'.2.1,
          copyComponentMethods_skips c.1 c.2 proxy _ (.inr (by simp [forwardedMethods]))]
      · rw [List.foldl_cons, h'.2.2,
          copyComponentMethods_skips c.1 c.2 proxy _ (.inr (by simp [forwardedMethods]))]

/-- Witness for C10 on a concrete prototype method list. -/
theorem C10_copy_component_methods_skiplist_witness :
    copyComponentMethods 7 ["constructor", "$destroy", "$set", "$on", "refresh"]
        (fun _ => .missing) "refresh" = .mirrored 7 "refresh"
    ∧ copyComponentMethods 7 ["constructor", "$destroy", "$set", "$on", "refresh"]
        (fun _ => .missing) "$destroy" = (fun _ => PSlot.missing) "$destroy" := by
  have h := C10_copy_component_methods_skiplist 7
    ["constructor", "$destroy", "$set", "$on", "refresh"] (fun _ => .missing)
    "refresh" (by simp) (by simp) (by simp) (by simp)
  exact ⟨h.1, h.2.1⟩

/-! Section: theorems about the property relay (claim C5) -/

theorem truthy_jsSetField (t : JsVal) (k : String) (v : JsVal) :
    truthy (jsSetField t k v) = truthy t := by
  cases t <;> rfl

theorem jsGet_jsSetField_other (t : JsVal) (k k' : String) (v : JsVal)
    (h : k' ≠ k) : jsGet (jsSetField t k v) k' = jsGet t k' := by
  cases t with
  | obj fields => simp [jsGet, jsSetField, lookupKV_setKV_other fields k k' v h]
  | undefined => rfl
  | num n => rfl
  | str s => rfl

/-- Counterexample for C5: resolve a live target through `get$$` (the
internals object `{ ctx: 5 }` of a component), write `7` to the relayed
key `ctx`, and a subsequent relay read of `ctx` still returns `5` — the
write does not store to the field the read consults. -/
theorem C5_relay_write_not_observed_counterexample :
    truthy (getDollarDollar (.obj [("$$", .obj [("ctx", .num 5)])])) = true
    ∧ relayPropertySet
        (getDollarDollar (.obj [("$$", .obj [("ctx", .num 5)])]))
        "ctx" (.num 7)
        = getDollarDollar (.obj [("$$", .obj [("ctx", .num 5)])])
    ∧ relayPropertyGet
        (relayPropertySet
          (getDollarDollar (.obj [("$$", .obj [("ctx", .num 5)])]))
          "ctx" (.num 7))
        "ctx"
        = .num 5 := by
  refine ⟨rfl, rfl, rfl⟩

/-- C5 (amended): a relay read calls the resolver at access time and
returns the (falsy, undefined-like) target itself when no target exists,
else the target's value for the key; a relay write is a no-op when no
target exists or when the target's `$$` field is not truthy (which is the
case for every target resolved by `get$$`, a component-internals object
with no `$$` field), and in all cases a write to a relayed key never
changes what a subsequent relay read of that key returns, because the
setter stores to `target.$$[key]` while the getter reads `target[key]`. -/
theorem C5_property_relay_amended (target value : JsVal) (key : String)
    (hkey : key ∈ dollarDollarProperties) :
    relayPropertyGet (getDollarDollar .undefined) key = .undefined
    ∧ (truthy target = false →
        relayPropertyGet target key = target
        ∧ relayPropertySet target key value = target)
    ∧ (truthy target = true →
        relayPropertyGet target key = jsGet target key)
    ∧ (truthy (jsGet target "$$") = false →
        relayPropertySet target key value = target)
    ∧ relayPropertyGet (relayPropertySet target key value) key
        = relayPropertyGet target key := by
  have hne : key ≠ "$$" := by
    intro h
    subst h
    simp [dollarDollarProperties] at hkey
  refine ⟨rfl, ?_, ?_, ?_, ?_⟩
  · intro h
    exact ⟨by simp [relayPropertyGet, jsAnd, h],
      by simp [relayPropertySet, h]⟩
  · intro h
    simp [relayPropertyGet, jsAnd, h]
  · intro h
    simp [relayPropertySet, h]
  · unfold relayPropertySet
    by_cases hg : truthy target && truthy (jsGet target "$$")
    · rw [if_pos hg]
      have ht : truthy target = true := (Bool.and_eq_true _ _ |>.mp hg).1
      unfold relayPropertyGet jsAnd
      rw [truthy_jsSetField, ht,
        jsGet_jsSetField_other _ _ _ _ hne]
      simp [ht]
    · rw [if_neg hg]

/-- Witness for the amended C5 at a concrete target and key. -/
theorem C5_property_relay_amended_witness :
    ("ctx" ∈ dollarDollarProperties)
    ∧ relayPropertyGet
        (relayPropertySet (.obj [("ctx", .num 5)]) "ctx" (.num 7)) "ctx"
        = relayPropertyGet (.obj [("ctx", .num 5)]) "ctx" := by
  have h := C5_property_relay_amended (.obj [("ctx", .num 5)]) (.num 7)
    "ctx" (by simp [dollarDollarProperties])
  exact ⟨by simp [dollarDollarProperties], h.2.2.2.2⟩

/-! Section: theorems about `restoreState` (claim C6) -/

/-- A concrete component-surface value for the C6 counterexample. -/
def c6cmp : CmpE :=
  { callbacks := .obj [], setCalls := [], updateCalls := 0, injectCalls := [] }

/-- Counterexample for C6: the `initProxy` iteration's `restoreState`,
called with no snapshot, silently returns the untouched component instead
of failing with an illegal-state error. -/
theorem C6_restore_without_snapshot_counterexample :
    restoreStateHmr c6cmp none = .ok c6cmp := rfl

/-- C6 (amended): the strict `restoreState` of the adapter-era iteration
throws `Error('Illegal state')` when called with no snapshot, but the
`initProxy` iteration's `restoreState` silently returns the component
unchanged in that situation. -/
theorem C6_restore_without_snapshot_amended (cmp : CmpE) :
    restoreState3 cmp none = .error ⟨"Illegal state"⟩
    ∧ restoreStateHmr cmp none = .ok cmp :=
  ⟨rfl, rfl⟩

/-! Section: `createComponent` with Registry rollback (claim C2)

Embedding of the first `proxy.js` iteration:

```js
const createComponent = (proxy, state, options, restore) => {
  const { id, debugName } = state;
  const record = Registry.get(id);
  try {
    const cmp = new record.component(options);
    copyComponentMethods(proxy, cmp);
    if (restore) { restoreState(cmp, restore); }
    return cmp;
  } catch (e) {
    const rb = record.rollback;
    if (!rb) {
      console.error('Full reload required due to error in component ' + debugName);
      throw e;
    }
    delete record.rollback;
    record.component = rb;
    Registry.set(id, record);
    console.info('%c' + debugName + ' rolled back to previous working version', ...);
    return createComponent(proxy, state, options, restore);
  }
};
```

The component constructor is an external black box: an `Impl` either
constructs (allocating a fresh instance) or throws, and the world records
every constructor invocation in `ctorCalls` so that "retries exactly once"
is expressible. -/

/-- A component implementation as stored in the Registry. -/
structure Impl where
  /-- identity of this implementation version -/
  ver : Nat
  /-- whether `new impl(options)` completes without throwing -/
  ctorOk : Bool
  /-- own property names of `impl.prototype` -/
  protoMethods : List String

/-- A Registry record for one component id. -/
structure RecordA where
  component : Impl
  rollback : Option Impl

/-- The Registry interface (`get(id)`, `set(id, record)`), modelled as a
total table. -/
def RegistryA : Type := String → RecordA

/-- Registry `set(id, record)`. -/
def RegistryA.set (reg : RegistryA) (id : String) (r : RecordA) :
    RegistryA :=
  fun i => if i = id then r else reg i

/-- A constructed internal component instance. -/
structure CmpA where
  /-- heap identity of the instance -/
  id : Nat
  /-- version of the implementation that constructed it -/
  ver : Nat
  /-- the `cmp.$$.callbacks` listener table -/
  callbacks : JsVal

/-- A captured snapshot in the first iteration (`captureState` keeps only
`callbacks`). -/
structure SnapshotA where
  callbacks : JsVal

/-- The first iteration's `restoreState`: tolerant, callbacks only. -/
def restoreStateA (cmp : CmpA) (restore : Option SnapshotA) : CmpA :=
  match restore with
  | none => cmp
  | some r =>
    if truthy r.callbacks then { cmp with callbacks := r.callbacks } else cmp

/-- The mutable world threaded through `createComponent`: the Registry,
the proxy object's property table, a fresh-identity counter, the console
log, and the (ghost) ordered list of constructor invocations. -/
structure WorldA where
  registry : RegistryA
  proxy : ProxyTable
  nextCmpId : Nat
  logs : List String
  /-- implementation versions passed to `new record.component(...)`,
  in invocation order (ghost instrumentation) -/
  ctorCalls : List Nat

/-- The error thrown by version `v`'s constructor. -/
def ctorError (v : Nat) : JsError := ⟨"constructor of version " ++ toString v ++ " threw"⟩

/-- The `new record.component(options)` call: an external black box that
either allocates a fresh instance or throws. -/
def constructImpl (impl : Impl) (options : JsVal) (w : WorldA) :
    WorldA × Except JsError CmpA :=
  let w := { w with ctorCalls := w.ctorCalls ++ [impl.ver] }
  if impl.ctorOk then
    ({ w with nextCmpId := w.nextCmpId + 1 },
      .ok { id := w.nextCmpId, ver := impl.ver, callbacks := .obj [] })
  else (w, .error (ctorError impl.ver))

/-- The console message of the unrecoverable branch. -/
def fullReloadMsg (debugName : String) : String :=
  "Full reload required due to error in component " ++ debugName

/-- The console message of the rollback branch. -/
def rolledBackMsg (debugName : String) : String :=
  "%c" ++ debugName ++ " rolled back to previous working version"

/-- Termination measure: whether a record still holds a rollback. -/
def rbWeight : Option Impl → Nat
  | none => 0
  | some _ => 1

/-- The first `proxy.js` iteration's `createComponent`. -/
def createComponent (w : WorldA) (id debugName : String) (options : JsVal)
    (restore : Option SnapshotA) : WorldA × Except JsError CmpA :=
  let record := w.registry id
  match constructImpl record.component options w with
  | (w1, .ok cmp) =>
    let w2 := { w1 with
      proxy := copyComponentMethods cmp.id record.component.protoMethods w1.proxy }
    (w2, .ok (restoreStateA cmp restore))
  | (w1, .error e) =>
    match hrb : record.rollback with
    | none =>
      ({ w1 with logs := w1.logs ++ [fullReloadMsg debugName] }, .error e)
    | some rb =>
      let record2 : RecordA := { component := rb, rollback := none }
      let w2 := { w1 with
        registry := w1.registry.set id record2,
        logs := w1.logs ++ [rolledBackMsg debugName] }
      createComponent w2 id debugName options restore
termination_by rbWeight (w.registry id).rollback
decreasing_by
  have h : (w.registry id).rollback = some rb := hrb
  rw [h]
  simp [rbWeight, RegistryA.set]

/-- Unfolding equation of `createComponent` when the current constructor
completes. -/
theorem createComponent_ctor_ok (w : WorldA) (id debugName : String)
    (options : JsVal) (restore : Option SnapshotA)
    (hok : (w.registry id).component.ctorOk = true) :
    createComponent w id debugName options restore
      = ({ w with
            ctorCalls := w.ctorCalls ++ [(w.registry id).component.ver],
            nextCmpId := w.nextCmpId + 1,
            proxy := copyComponentMethods w.nextCmpId
              (w.registry id).component.protoMethods w.proxy },
          .ok (restoreStateA
            { id := w.nextCmpId, ver := (w.registry id).component.ver,
              callbacks := .obj [] } restore)) := by
  rw [createComponent]
  simp [constructImpl, hok]

/-- Unfolding equation of `createComponent` when the current constructor
throws and no rollback is available. -/
theorem createComponent_ctor_throw_no_rollback (w : WorldA)
    (id debugName : String) (options : JsVal) (restore : Option SnapshotA)
    (hfail : (w.registry id).component.ctorOk = false)
    (hnone : (w.registry id).rollback = none) :
    createComponent w id debugName options restore
      = ({ w with
            ctorCalls := w.ctorCalls ++ [(w.registry id).component.ver],
            logs := w.logs ++ [fullReloadMsg debugName] },
          .error (ctorError (w.registry id).component.ver)) := by
  rw [createComponent]
  simp only [constructImpl, hfail, Bool.false_eq_true, if_false]
  split <;> simp_all

/-- Unfolding equation of `createComponent` when the current constructor
throws and a rollback is available. -/
theorem createComponent_ctor_throw_rollback (w : WorldA)
    (id debugName : String) (options : JsVal) (restore : Option SnapshotA)
    (rb : Impl)
    (hfail : (w.registry id).component.ctorOk = false)
    (hrb : (w.registry id).rollback = some rb) :
    createComponent w id debugName options restore
      = createComponent
          { w with
            registry := w.registry.set id { component := rb, rollback := none },
            logs := w.logs ++ [rolledBackMsg debugName],
            ctorCalls := w.ctorCalls ++ [(w.registry id).component.ver] }
          id debugName options restore := by
  conv_lhs => rw [createComponent]
  simp only [constructImpl, hfail, Bool.false_eq_true, if_false]
  split <;> simp_all

/-- State restoration never changes which implementation version built the
instance. -/
theorem restoreStateA_ver (c : CmpA) (r : Option SnapshotA) :
    (restoreStateA c r).ver = c.ver := by
  cases r with
  | none => rfl
  | some s => by_cases h : truthy s.callbacks <;> simp [restoreStateA, h]

/-- C2: when constructing an internal instance from the current
implementation throws: if the Registry record for the id holds a rollback
implementation, `createComponent` installs the rollback as the record's
current component, deletes the rollback marker, writes the record back to
the Registry, logs the rollback message and retries construction exactly
once with the rollback (the constructor-invocation list grows by exactly
the failed version followed by the rollback version); if the record holds
no rollback, it logs the full-reload message and re-throws the original
construction error. -/
theorem C2_create_component_rollback_protocol (w : WorldA)
    (id debugName : String) (options : JsVal) (restore : Option SnapshotA)
    (hfail : (w.registry id).component.ctorOk = false) :
    ((w.registry id).rollback = none →
      createComponent w id debugName options restore
        = ({ w with
              ctorCalls := w.ctorCalls ++ [(w.registry id).component.ver],
              logs := w.logs ++ [fullReloadMsg debugName] },
            .error (ctorError (w.registry id).component.ver)))
    ∧ (∀ rb, (w.registry id).rollback = some rb →
        ((createComponent w id debugName options restore).1.registry id).component
            = rb
        ∧ ((createComponent w id debugName options restore).1.registry id).rollback
            = none
        ∧ (createComponent w id debugName options restore).1.ctorCalls
            = w.ctorCalls ++ [(w.registry id).component.ver, rb.ver]
        ∧ rolledBackMsg debugName
            ∈ (createComponent w id debugName options restore).1.logs
        ∧ (rb.ctorOk = true →
            ∃ cmp, (createComponent w id debugName options restore).2
                = .ok cmp ∧ cmp.ver = rb.ver)
        ∧ (rb.ctorOk = false →
            (createComponent w id debugName options restore).2
                = .error (ctorError rb.ver)
            ∧ fullReloadMsg debugName
                ∈ (createComponent w id debugName options restore).1.logs)) := by
  constructor
  · intro hnone
    exact createComponent_ctor_throw_no_rollback w id debugName options
      restore hfail hnone
  · intro rb hrb
    rw [createComponent_ctor_throw_rollback w id debugName options restore
      rb hfail hrb]
    by_cases hok : rb.ctorOk
    · rw [createComponent_ctor_ok _ id debugName options restore
        (by simp [RegistryA.set, hok])]
      refine ⟨by simp [RegistryA.set], by simp [RegistryA.set], ?_, ?_, ?_, ?_⟩
      · simp [RegistryA.set]
      · simp
      · intro _
        exact ⟨_, rfl, by simp [RegistryA.set, restoreStateA_ver]⟩
      · intro hcon
        rw [hok] at hcon
        cases hcon
    · have hok' : rb.ctorOk = false := by simpa using hok
      rw [createComponent_ctor_throw_no_rollback _ id debugName options
        restore (by simp [RegistryA.set, hok']) (by simp [RegistryA.set])]
      refine ⟨by simp [RegistryA.set], by simp [RegistryA.set], ?_, ?_, ?_, ?_⟩
      · simp [RegistryA.set]
      · simp
      · intro hcon
        rw [hok'] at hcon
        cases hcon
      · intro _
        exact ⟨by simp [RegistryA.set], by simp⟩

/-- A concrete Registry for the C2 witness: current version 2 throws,
rollback version 1 constructs. -/
def c2registry : RegistryA := fun _ =>
  { component := { ver := 2, ctorOk := false, protoMethods := [] },
    rollback := some { ver := 1, ctorOk := true, protoMethods := [] } }

/-- A concrete world for the C2 witness. -/
def c2world : WorldA :=
  { registry := c2registry, proxy := fun _ => .missing, nextCmpId := 0,
    logs := [], ctorCalls := [] }

/-- Witness for C2 at a concrete failing reload with a rollback available. -/
theorem C2_create_component_rollback_protocol_witness :
    (c2world.registry "app/Foo.svelte").component.ctorOk = false
    ∧ ((createComponent c2world "app/Foo.svelte" "<Foo>" .undefined
          none).1.registry "app/Foo.svelte").rollback = none
    ∧ (createComponent c2world "app/Foo.svelte" "<Foo>" .undefined
          none).1.ctorCalls = [2, 1] := by
  have h := C2_create_component_rollback_protocol c2world "app/Foo.svelte"
    "<Foo>" .undefined none rfl
  have h2 := h.2 { ver := 1, ctorOk := true, protoMethods := [] } rfl
  exact ⟨rfl, h2.2.1, by simpa using h2.2.2.1⟩

/-! Section: the adapter-era proxy instance and the DOM adapter
(claims C1, C3, C7)

Embedding of the `ProxyComponent` closure state of `src/unnamed/part_003`
composed with `src/lib/proxy-adapter-dom.js` (the `Adapter` it
instantiates).  The relevant source:

```js
// part_003, instance closure
const createComponent = (target, anchor) => {
  const opts = Object.assign({}, options, { target, anchor });
  cmp = new component(opts);
  copyComponentMethods(this, cmp);
  return cmp;
};
const destroyComponent = () => { if (cmp) { cmp.$destroy(); } cmp = null; };
const instance = { ...,
  captureState: () => { restore = captureState(cmp); },
  restoreState: () => { restoreState(cmp, restore); restore = null; },
};

// proxy-adapter-dom.js
afterMount(target, anchor) {
  if (!this.insertionPoint) {
    this.insertionPoint = document.createComment(debugName);
    target.insertBefore(this.insertionPoint, anchor);
  }
}
dispose() {
  if (this.insertionPoint) {
    removeElement(this.insertionPoint);
    this.insertionPoint = null;
  }
}
rerender() {
  if (!insertionPoint) { throw new Error('Cannot rerender: Missing insertion point'); }
  captureState();
  destroyComponent();
  createComponent(insertionPoint.parentNode, insertionPoint);
  restoreState();
}
```

The host tree is a table from node id to list of child node ids; component
instances and marker nodes draw identities from one fresh counter.  The
ghost fields `live` (constructed and not yet destroyed instances) and
`events` (ordered lifecycle actions) instrument object existence and
ordering without influencing control flow. -/

/-- The host tree: a finite table of nodes with their child node lists. -/
def Dom : Type := List (Nat × List Nat)

/-- Children of a node (`node.childNodes`). -/
def domChildren : Dom → Nat → List Nat
  | [], _ => []
  | e :: rest, n => if e.1 = n then e.2 else domChildren rest n

/-- Insert `m` immediately before the first occurrence of the anchor, or at
the end when the anchor is absent (`insertBefore(m, anchor)`; callers only
pass anchors that are children of the target, or none). -/
def insertBeforeList (children : List Nat) (m : Nat) :
    Option Nat → List Nat
  | none => children ++ [m]
  | some a =>
    match children with
    | [] => [m]
    | c :: cs => if c = a then m :: c :: cs else c :: insertBeforeList cs m (some a)

/-- Replace (or add) the children list of one node. -/
def domSetChildren : Dom → Nat → List Nat → Dom
  | [], node, cs => [(node, cs)]
  | e :: rest, node, cs =>
    if e.1 = node then (node, cs) :: rest
    else e :: domSetChildren rest node cs

/-- The `target.insertBefore(m, anchor)` host-tree operation. -/
def domInsertBefore (dom : Dom) (target m : Nat) (anchor : Option Nat) :
    Dom :=
  domSetChildren dom target (insertBeforeList (domChildren dom target) m anchor)

/-- The `removeElement` helper (`el.parentNode.removeChild(el)`). -/
def domRemoveElement (dom : Dom) (m : Nat) : Dom :=
  dom.map (fun e => (e.1, e.2.erase m))

/-- The `node.parentNode` host-tree lookup: the first node holding `node`
among its children. -/
def domParent : Dom → Nat → Option Nat
  | [], _ => none
  | e :: rest, node => if node ∈ e.2 then some e.1 else domParent rest node

/-- Ghost lifecycle events, in execution order. -/
inductive EventB where
  | captured (id : Nat)
  | destroyed (id : Nat)
  | created (id : Nat)
  | restored (id : Nat)
deriving Repr, DecidableEq

/-- An implementation version as the adapter-era proxy sees it (the
`component` closure variable); the constructor is an external black box
that either completes (building a fresh instance with its initial `$$`
context) or throws. -/
structure ImplB where
  ver : Nat
  ctorOk : Bool
  initialCtx : JsVal
  protoMethods : List String

/-- A live internal component instance (`cmp`), with its externally
invoked `$set` / `$update` surface recorded. -/
structure CmpB where
  id : Nat
  ver : Nat
  ctx : JsVal
  callbacks : JsVal
  setCalls : List JsVal
  updateCalls : Nat

/-- A captured snapshot `{ props: ctx, callbacks }` (part_003
`captureState`). -/
structure SnapshotB where
  props : JsVal
  callbacks : JsVal

/-- Application of part_003 `restoreState` to a live instance: write the
callbacks table, replay `$set(props)` through the public surface, then
`$update()`. -/
def restoreStateApplyB (cmp : CmpB) (r : SnapshotB) : CmpB :=
  let cmp := if truthy r.callbacks then { cmp with callbacks := r.callbacks }
             else cmp
  let cmp := if truthy r.props then { cmp with setCalls := cmp.setCalls ++ [r.props] }
             else cmp
  { cmp with updateCalls := cmp.updateCalls + 1 }

/-- The whole mutable state of one adapter-era proxy instance: its closure
variables, the adapter's marker, the host tree, and ghost instrumentation. -/
structure StateB where
  /-- identity of the proxy object handed to external code (`this`) -/
  proxyRef : Nat
  /-- the proxy object's property slots -/
  proxyMethods : ProxyTable
  /-- the `component` closure variable (current implementation) -/
  component : ImplB
  /-- the `options` closure variable -/
  options : JsVal
  /-- the `cmp` closure variable -/
  cmp : Option CmpB
  /-- the `restore` closure variable -/
  restore : Option SnapshotB
  /-- the adapter's `insertionPoint` marker node -/
  insertionPoint : Option Nat
  dom : Dom
  /-- ghost: ids of constructed, not yet destroyed instances -/
  live : List Nat
  /-- fresh identity source for instances and nodes -/
  nextId : Nat
  /-- ghost: lifecycle events in execution order -/
  events : List EventB

/-- The instance's `captureState` thunk: `restore = captureState(cmp)`;
part_003 `captureState` throws on a missing component. -/
def captureStateStepB (s : StateB) : StateB × Option JsError :=
  match s.cmp with
  | none => (s, some ⟨"Missing component"⟩)
  | some c =>
    ({ s with
        restore := some ({ props := c.ctx, callbacks := c.callbacks }),
        events := s.events ++ [.captured c.id] }, none)

/-- The instance's `destroyComponent`: `if (cmp) { cmp.$destroy(); } cmp = null`. -/
def destroyComponentB (s : StateB) : StateB :=
  match s.cmp with
  | some c =>
    { s with
        live := s.live.erase c.id, cmp := none,
        events := s.events ++ [.destroyed c.id] }
  | none => { s with cmp := none }

/-- The instance's `createComponent(target, anchor)`: construct from the
current implementation (fresh identity on success, exception on failure)
and mirror its prototype methods onto the proxy. -/
def createComponentStepB (s : StateB) (target : Option Nat)
    (anchor : Option Nat) : StateB × Option JsError :=
  if s.component.ctorOk then
    let cmp : CmpB :=
      { id := s.nextId, ver := s.component.ver,
        ctx := s.component.initialCtx, callbacks := .obj [],
        setCalls := [], updateCalls := 0 }
    ({ s with
        cmp := some cmp, nextId := s.nextId + 1,
        live := s.live ++ [cmp.id],
        events := s.events ++ [.created cmp.id],
        proxyMethods := copyComponentMethods cmp.id
          s.component.protoMethods s.proxyMethods }, none)
  else (s, some (ctorError s.component.ver))

/-- The instance's `restoreState` thunk: `restoreState(cmp, restore);
restore = null` — the module-level `restoreState` throws on a missing
snapshot, then applies the snapshot through the instance's surface. -/
def restoreStateStepB (s : StateB) : StateB × Option JsError :=
  match s.restore with
  | none => (s, some ⟨"Illegal state"⟩)
  | some r =>
    match s.cmp with
    | none => (s, some ⟨"TypeError: cmp is null"⟩)
    | some c =>
      ({ s with
          cmp := some (restoreStateApplyB c r), restore := none,
          events := s.events ++ [.restored c.id] }, none)

/-- The DOM adapter's `afterMount(target, anchor)`. -/
def afterMountB (s : StateB) (target : Nat) (anchor : Option Nat) :
    StateB :=
  match s.insertionPoint with
  | some _ => s
  | none =>
    let m := s.nextId
    { s with
        insertionPoint := some m, nextId := s.nextId + 1,
        dom := domInsertBefore s.dom target m anchor }

/-- The DOM adapter's `dispose()`. -/
def disposeB (s : StateB) : StateB :=
  match s.insertionPoint with
  | some m =>
    { s with dom := domRemoveElement s.dom m, insertionPoint := none }
  | none => s

/-- The DOM adapter's `rerender()`: throw without an insertion point, else
capture, destroy, create at the marker's position, restore. -/
def rerenderB (s : StateB) : StateB × Option JsError :=
  match s.insertionPoint with
  | none => (s, some ⟨"Cannot rerender: Missing insertion point"⟩)
  | some ip =>
    match captureStateStepB s with
    | (s1, some e) => (s1, some e)
    | (s1, none) =>
      let s2 := destroyComponentB s1
      match createComponentStepB s2 (domParent s2.dom ip) (some ip) with
      | (s3, some e) => (s3, some e)
      | (s3, none) => restoreStateStepB s3

/-- A sequence of `n` external `rerender()` calls (each call's thrown
error, if any, propagates to that caller; the mutations made before the
throw persist). -/
def rerenderManyB : Nat → StateB → StateB
  | 0, s => s
  | n + 1, s => rerenderManyB n (rerenderB s).1

/-! Section: proxy identity across rerenders (claim C1) -/

theorem captureStateStepB_proxyRef (s : StateB) :
    (captureStateStepB s).1.proxyRef = s.proxyRef := by
  unfold captureStateStepB
  cases s.cmp <;> rfl

theorem destroyComponentB_proxyRef (s : StateB) :
    (destroyComponentB s).proxyRef = s.proxyRef := by
  unfold destroyComponentB
  cases s.cmp <;> rfl

theorem createComponentStepB_proxyRef (s : StateB) (t a : Option Nat) :
    (createComponentStepB s t a).1.proxyRef = s.proxyRef := by
  unfold createComponentStepB
  by_cases h : s.component.ctorOk <;> simp [h]

theorem restoreStateStepB_proxyRef (s : StateB) :
    (restoreStateStepB s).1.proxyRef = s.proxyRef := by
  unfold restoreStateStepB
  cases s.restore <;> cases s.cmp <;> rfl

theorem rerenderB_proxyRef (s : StateB) :
    (rerenderB s).1.proxyRef = s.proxyRef := by
  unfold rerenderB
  split
  · rfl
  next ip heq0 =>
    split
    next s1 e heq =>
      have h := captureStateStepB_proxyRef s
      rw [heq] at h
      exact h
    next s1 heq =>
      have h1 : s1.proxyRef = s.proxyRef := by
        have h := captureStateStepB_proxyRef s
        rw [heq] at h
        exact h
      dsimp only
      split
      next s3 e heq2 =>
        have h3 := createComponentStepB_proxyRef (destroyComponentB s1)
          (domParent (destroyComponentB s1).dom ip) (some ip)
        rw [heq2] at h3
        rw [h3, destroyComponentB_proxyRef, h1]
      next s3 heq2 =>
        have h3 := createComponentStepB_proxyRef (destroyComponentB s1)
          (domParent (destroyComponentB s1).dom ip) (some ip)
        rw [heq2] at h3
        rw [restoreStateStepB_proxyRef, h3, destroyComponentB_proxyRef, h1]

theorem rerenderManyB_proxyRef (n : Nat) (s : StateB) :
    (rerenderManyB n s).proxyRef = s.proxyRef := by
  induction n generalizing s with
  | zero => rfl
  | succ n ih =>
    show (rerenderManyB n (rerenderB s).1).proxyRef = s.proxyRef
    rw [ih, rerenderB_proxyRef]

theorem restoreStateApplyB_id (c : CmpB) (r : SnapshotB) :
    (restoreStateApplyB c r).id = c.id := by
  unfold restoreStateApplyB
  by_cases h1 : truthy r.callbacks <;> by_cases h2 : truthy r.props <;>
    simp [h1, h2]

/-- Full evaluation of one successful `rerender()`: the old instance is
captured and destroyed, a fresh instance is constructed at the marker and
the snapshot restored onto it; only the component-instance state (and the
mirrored proxy methods) change. -/
theorem rerenderB_success_eval (s : StateB) (c : CmpB) (ip : Nat)
    (hcmp : s.cmp = some c) (hip : s.insertionPoint = some ip)
    (hok : s.component.ctorOk = true) :
    rerenderB s
      = ({ s with
            cmp := some (restoreStateApplyB
              { id := s.nextId, ver := s.component.ver,
                ctx := s.component.initialCtx, callbacks := .obj [],
                setCalls := [], updateCalls := 0 }
              { props := c.ctx, callbacks := c.callbacks }),
            restore := none,
            live := (s.live.erase c.id) ++ [s.nextId],
            nextId := s.nextId + 1,
            proxyMethods := copyComponentMethods s.nextId
              s.component.protoMethods s.proxyMethods,
            events := s.events ++ [.captured c.id, .destroyed c.id,
              .created s.nextId, .restored s.nextId] }, none) := by
  unfold rerenderB captureStateStepB destroyComponentB createComponentStepB
    restoreStateStepB
  simp [hcmp, hip, hok]

/-- C1: across any sequence of `rerender()` calls the proxy object handed
to external code keeps its identity — `rerender` only replaces the
internal component instance (`cmp`), never the proxy itself; under normal
conditions (live instance, marker present, constructor succeeds) a single
rerender really does install a fresh internal instance, distinct from the
old one. -/
theorem C1_proxy_identity_stable (s : StateB) (n : Nat) (c : CmpB)
    (ip : Nat) (hcmp : s.cmp = some c) (hip : s.insertionPoint = some ip)
    (hok : s.component.ctorOk = true) (hfresh : c.id < s.nextId) :
    (rerenderManyB n s).proxyRef = s.proxyRef
    ∧ (rerenderB s).2 = none
    ∧ (∃ c', (rerenderB s).1.cmp = some c'
        ∧ c'.id = s.nextId ∧ c'.id ≠ c.id) := by
  refine ⟨rerenderManyB_proxyRef n s, ?_, ?_⟩
  · rw [rerenderB_success_eval s c ip hcmp hip hok]
  · rw [rerenderB_success_eval s c ip hcmp hip hok]
    refine ⟨_, rfl, ?_, ?_⟩
    · exact restoreStateApplyB_id _ _
    · rw [restoreStateApplyB_id]
      show s.nextId ≠ c.id
      omega

/-- A concrete implementation for the Model B witnesses. -/
def implB1 : ImplB :=
  { ver := 1, ctorOk := true, initialCtx := .obj [], protoMethods := [] }

/-- The live instance of the concrete Model B witness state. -/
def cmpB0 : CmpB :=
  { id := 0, ver := 1, ctx := .obj [], callbacks := .obj [],
    setCalls := [], updateCalls := 0 }

/-- A concrete mounted proxy state for the Model B witnesses: instance 0
live, marker node 1 inserted under host node 10. -/
def stateB0 : StateB :=
  { proxyRef := 42, proxyMethods := fun _ => .missing, component := implB1,
    options := .undefined, cmp := some cmpB0,
    restore := none, insertionPoint := some 1, dom := [(10, [1])],
    live := [0], nextId := 2, events := [] }

/-- Witness for C1: three rerenders on the concrete state keep the proxy
reference and replace the instance. -/
theorem C1_proxy_identity_stable_witness :
    (rerenderManyB 3 stateB0).proxyRef = stateB0.proxyRef
    ∧ (∃ c', (rerenderB stateB0).1.cmp = some c'
        ∧ c'.id = stateB0.nextId ∧ c'.id ≠ 0) := by
  have h := C1_proxy_identity_stable stateB0 3 cmpB0
    1 rfl rfl rfl (by simp [stateB0, cmpB0])
  refine ⟨h.1, ?_⟩
  obtain ⟨cn, hcn, hid, hne⟩ := h.2.2
  exact ⟨cn, hcn, hid, by rw [hid]; simp [stateB0]⟩

/-! Section: the marker insertion point (claim C7) -/

theorem insertBeforeList_none (l : List Nat) (m : Nat) :
    insertBeforeList l m none = l ++ [m] := by
  cases l <;> rfl

theorem insertBeforeList_count (l : List Nat) (m : Nat) (a : Option Nat) :
    (insertBeforeList l m a).count m = l.count m + 1 := by
  cases a with
  | none => simp [insertBeforeList]
  | some x =>
    induction l with
    | nil => simp [insertBeforeList]
    | cons c cs ih =>
      by_cases h : c = x
      · simp [insertBeforeList, h, List.count_cons]
      · simp only [insertBeforeList, h, if_false, List.count_cons, ih]
        omega

theorem insertBeforeList_mem_split (l : List Nat) (m a : Nat)
    (ha : a ∈ l) :
    ∃ pre post, l = pre ++ a :: post ∧ a ∉ pre
      ∧ insertBeforeList l m (some a) = pre ++ m :: a :: post := by
  induction l with
  | nil => cases ha
  | cons c cs ih =>
    by_cases h : c = a
    · subst h
      exact ⟨[], cs, rfl, by simp, by simp [insertBeforeList]⟩
    · have ha' : a ∈ cs := by
        rcases List.mem_cons.mp ha with h' | h'
        · exact absurd h'.symm h
        · exact h'
      obtain ⟨pre, post, hl, hnp, hins⟩ := ih ha'
      refine ⟨c :: pre, post, by simp [hl], ?_, ?_⟩
      · intro hmem
        rcases List.mem_cons.mp hmem with h' | h'
        · exact h h'.symm
        · exact hnp h'
      · simp [insertBeforeList, h, hins]

theorem domChildren_domSetChildren_self (dom : Dom) (n : Nat)
    (cs : List Nat) : domChildren (domSetChildren dom n cs) n = cs := by
  induction dom with
  | nil => simp [domSetChildren, domChildren]
  | cons e rest ih =>
    by_cases h : e.1 = n <;> simp [domSetChildren, domChildren, h, ih]

theorem afterMountB_noop (s : StateB) (t : Nat) (a : Option Nat) (m : Nat)
    (hip : s.insertionPoint = some m) : afterMountB s t a = s := by
  simp only [afterMountB, hip]

theorem afterMountB_fold_noop (calls : List (Nat × Option Nat))
    (s : StateB) (m : Nat) (hip : s.insertionPoint = some m) :
    calls.foldl (fun st c => afterMountB st c.1 c.2) s = s := by
  induction calls with
  | nil => rfl
  | cons c rest ih => rw [List.foldl_cons, afterMountB_noop _ _ _ m hip, ih]

/-- C7: only the first `afterMount(target, anchor)` call creates the
marker node and inserts it into the target immediately before the anchor
(at the end when the anchor is absent); every subsequent `afterMount` call
on the same adapter is a no-op, so across any number of calls exactly one
marker node exists in the target and the adapter still holds the node
inserted at first mount. -/
theorem C7_after_mount_single_marker (s : StateB) (target : Nat)
    (anchor : Option Nat) (calls : List (Nat × Option Nat))
    (hip : s.insertionPoint = none)
    (hfresh : s.nextId ∉ domChildren s.dom target) :
    (afterMountB s target anchor).insertionPoint = some s.nextId
    ∧ (domChildren (afterMountB s target anchor).dom target).count s.nextId
        = 1
    ∧ calls.foldl (fun st c => afterMountB st c.1 c.2)
        (afterMountB s target anchor) = afterMountB s target anchor
    ∧ (anchor = none →
        domChildren (afterMountB s target anchor).dom target
          = domChildren s.dom target ++ [s.nextId])
    ∧ (∀ a, anchor = some a → a ∈ domChildren s.dom target →
        ∃ pre post, domChildren s.dom target = pre ++ a :: post ∧ a ∉ pre
          ∧ domChildren (afterMountB s target anchor).dom target
              = pre ++ s.nextId :: a :: post) := by
  have heval : afterMountB s target anchor
      = { s with
          insertionPoint := some s.nextId, nextId := s.nextId + 1,
          dom := domInsertBefore s.dom target s.nextId anchor } := by
    simp only [afterMountB, hip]
  have hchildren :
      domChildren (afterMountB s target anchor).dom target
        = insertBeforeList (domChildren s.dom target) s.nextId anchor := by
    rw [heval]
    exact domChildren_domSetChildren_self s.dom target _
  refine ⟨by rw [heval], ?_, ?_, ?_, ?_⟩
  · rw [hchildren, insertBeforeList_count,
      List.count_eq_zero_of_not_mem hfresh]
  · exact afterMountB_fold_noop calls _ s.nextId (by rw [heval])
  · intro hnone
    rw [hchildren, hnone, insertBeforeList_none]
  · intro a hanchor hmem
    obtain ⟨pre, post, hl, hnp, hins⟩ :=
      insertBeforeList_mem_split (domChildren s.dom target) s.nextId a hmem
    exact ⟨pre, post, hl, hnp, by rw [hchildren, hanchor, hins]⟩

/-- A concrete unmounted proxy state (no marker yet) for the C7 witness. -/
def stateB1 : StateB :=
  { proxyRef := 42, proxyMethods := fun _ => .missing, component := implB1,
    options := .undefined, cmp := some cmpB0,
    restore := none, insertionPoint := none, dom := [(10, [7, 8])],
    live := [0], nextId := 2, events := [] }

/-- Witness for C7: mount once before anchor 8 under node 10, then two
further afterMount calls are no-ops and exactly one marker exists. -/
theorem C7_after_mount_single_marker_witness :
    (afterMountB stateB1 10 (some 8)).insertionPoint = some stateB1.nextId
    ∧ (domChildren (afterMountB stateB1 10 (some 8)).dom 10).count
        stateB1.nextId = 1
    ∧ [(10, some 8), (10, none)].foldl
        (fun st c => afterMountB st c.1 c.2)
        (afterMountB stateB1 10 (some 8))
      = afterMountB stateB1 10 (some 8) := by
  have h := C7_after_mount_single_marker stateB1 10 (some 8)
    [(10, some 8), (10, none)] rfl (by simp [stateB1, domChildren])
  exact ⟨h.1, h.2.1, h.2.2.1⟩

/-! Section: the `initProxy`-era `refreshComponent` (claim C3)

Embedding of the third `proxy.js` iteration:

```js
const doCreateComponent = (target, anchor) => {
  const { component } = current;
  const opts = Object.assign({}, options, { target, anchor }, restoreProps(restore));
  cmp = new component(opts);
  copyComponentMethods(this, cmp);
  restoreState(cmp, restore);
};
const createComponent = (target, anchor) => {
  try { doCreateComponent(target, anchor); return true; }
  catch (err) { setError(err, target, anchor); }
  return false;
};
const destroyComponent = () => {
  if (cmp) { restore = captureState(cmp); cmp.$destroy(); }
  cmp = null;
};
const refreshComponent = (target, anchor, conservativeDestroy) => {
  if (conservativeDestroy) {
    const prevCmp = cmp;
    restore = captureState(cmp);
    const created = createComponent(target, anchor);
    if (created) { prevCmp.$destroy(); return true; }
    else { cmp = prevCmp; return false; }
  } else {
    destroyComponent();
    const created = createComponent(target, anchor);
    return created;
  }
};
const setError = (err, target, anchor) => {
  console.warn('[Svelte HMR] Failed to recreate component instance', err);
  if (cmp) { cmp.$destroy(); }
  cmp = createErrorProxy(adapter, err, target, anchor);
};
```

`captureState` here reads `cmp.$capture_state ? cmp.$capture_state() : ctx`;
the optional external `$capture_state` result is carried on the instance.
`restoreState` is the tolerant iteration (silent on a missing snapshot)
applying callbacks directly and props via `$inject_state`.  The `live`
ghost field tracks constructed, not yet destroyed implementation
instances (the error placeholder `createErrorProxy` builds is not an
implementation instance and is not counted). -/

/-- An implementation version as the `initProxy` iteration sees it. -/
structure ImplH where
  ver : Nat
  ctorOk : Bool
  initialCtx : JsVal
  /-- what the optional `$capture_state` method returns, when the
  component defines one -/
  captureResult : Option JsVal
  protoMethods : List String

/-- A live instance (or the error placeholder) in the `initProxy`
iteration. -/
structure CmpH where
  id : Nat
  ver : Nat
  ctx : JsVal
  callbacks : JsVal
  injectCalls : List JsVal
  captureResult : Option JsVal
  isErrorProxy : Bool

/-- The mutable closure state of one `initProxy`-era proxy instance. -/
structure StateH where
  proxyRef : Nat
  proxyMethods : ProxyTable
  /-- `current.component` -/
  component : ImplH
  /-- the `cmp` closure variable -/
  cmp : Option CmpH
  /-- the `restore` closure variable -/
  restore : Option SnapshotB
  /-- ghost: ids of constructed, not yet destroyed implementation instances -/
  live : List Nat
  nextId : Nat
  events : List EventB
  logs : List String

/-- The `initProxy`-era `captureState` (throws on a missing component). -/
def captureStateH : Option CmpH → Except JsError SnapshotB
  | none => .error ⟨"Missing component"⟩
  | some c =>
    .ok { props := c.captureResult.getD c.ctx, callbacks := c.callbacks }

/-- The `initProxy`-era `restoreState` applied to a live instance
(tolerant: no snapshot means no work). -/
def restoreStateApplyH (cmp : CmpH) (restore : Option SnapshotB) : CmpH :=
  match restore with
  | none => cmp
  | some r =>
    let cmp := if truthy r.callbacks then { cmp with callbacks := r.callbacks }
               else cmp
    if truthy r.props then { cmp with injectCalls := cmp.injectCalls ++ [r.props] }
    else cmp

/-- The `doCreateComponent` body: construct from `current.component` with
`restoreProps(restore)` merged into the constructor options (so the
instance starts from the snapshot's props), mirror prototype methods,
apply `restoreState`. -/
def doCreateComponentH (s : StateH) : StateH × Option JsError :=
  if s.component.ctorOk then
    let ctx := match s.restore with
      | some r => if truthy r.props then r.props else s.component.initialCtx
      | none => s.component.initialCtx
    let cmp : CmpH :=
      { id := s.nextId, ver := s.component.ver, ctx := ctx,
        callbacks := .obj [], injectCalls := [],
        captureResult := s.component.captureResult, isErrorProxy := false }
    ({ s with
        cmp := some (restoreStateApplyH cmp s.restore),
        nextId := s.nextId + 1,
        live := s.live ++ [cmp.id],
        events := s.events ++ [.created cmp.id],
        proxyMethods := copyComponentMethods cmp.id
          s.component.protoMethods s.proxyMethods }, none)
  else (s, some (ctorError s.component.ver))

/-- The `setError` recovery: warn, destroy the still-assigned instance if
any, install the error placeholder. -/
def setErrorH (s : StateH) : StateH :=
  let s := { s with
    logs := s.logs ++ ["Failed to recreate component instance"] }
  let s := match s.cmp with
    | some c =>
      { s with
          live := s.live.erase c.id, cmp := none,
          events := s.events ++ [EventB.destroyed c.id] }
    | none => s
  { s with
      cmp := some
        ({ id := s.nextId, ver := 0, ctx := .obj [],
           callbacks := .obj [], injectCalls := [], captureResult := none,
           isErrorProxy := true }),
      nextId := s.nextId + 1 }

/-- The `createComponent` try/catch wrapper: true on success, false after
`setError`. -/
def createComponentH (s : StateH) : StateH × Bool :=
  match doCreateComponentH s with
  | (s1, none) => (s1, true)
  | (s1, some _) => (setErrorH s1, false)

/-- The `destroyComponent` body: capture into `restore`, destroy, clear. -/
def destroyComponentH (s : StateH) : StateH :=
  match s.cmp with
  | some c =>
    { s with
        restore := some
          ({ props := c.captureResult.getD c.ctx,
             callbacks := c.callbacks }),
        live := s.live.erase c.id, cmp := none,
        events := s.events ++ [.captured c.id, .destroyed c.id] }
  | none => { s with cmp := none }

/-- The `refreshComponent(target, anchor, conservativeDestroy)` body. -/
def refreshComponentH (s : StateH) (conservativeDestroy : Bool) :
    StateH × Except JsError Bool :=
  if conservativeDestroy then
    match s.cmp with
    | none => (s, .error ⟨"Missing component"⟩)
    | some prev =>
      let s1 := { s with
        restore := some
          ({ props := prev.captureResult.getD prev.ctx,
             callbacks := prev.callbacks }),
        events := s.events ++ [.captured prev.id] }
      match createComponentH s1 with
      | (s2, true) =>
        ({ s2 with
            live := s2.live.erase prev.id,
            events := s2.events ++ [.destroyed prev.id] }, .ok true)
      | (s2, false) => ({ s2 with cmp := some prev }, .ok false)
  else
    let s1 := destroyComponentH s
    let (s2, created) := createComponentH s1
    (s2, .ok created)

/-- C3: a rerender fully destroys the old internal instance — its state
having been captured first — before the new one is constructed, and at no
intermediate point do two internal instances of the same proxy exist: in
the DOM adapter's `rerender()` the capture happens on the still-live
instance, after `destroyComponent` the live set is empty, and the overall
event order is capture, destroy, create, restore with a fresh instance
identity; the `initProxy`-era `refreshComponent` (as invoked by a
rerender, i.e. without `conservativeDestroy`) likewise captures and
destroys before creating, with the live set empty in between. -/
theorem C3_destroy_before_create (s : StateB) (c : CmpB) (ip : Nat)
    (hcmp : s.cmp = some c) (hip : s.insertionPoint = some ip)
    (hok : s.component.ctorOk = true) (hlive : s.live = [c.id])
    (hfresh : c.id < s.nextId)
    (t : StateH) (d : CmpH)
    (hcmpH : t.cmp = some d) (hokH : t.component.ctorOk = true)
    (hliveH : t.live = [d.id]) (hfreshH : d.id < t.nextId) :
    ((captureStateStepB s).2 = none
      ∧ (captureStateStepB s).1.cmp = some c
      ∧ (captureStateStepB s).1.restore
          = some { props := c.ctx, callbacks := c.callbacks }
      ∧ (captureStateStepB s).1.live.length ≤ 1
      ∧ (destroyComponentB (captureStateStepB s).1).cmp = none
      ∧ (destroyComponentB (captureStateStepB s).1).live = []
      ∧ (rerenderB s).2 = none
      ∧ (rerenderB s).1.events
          = s.events ++ [.captured c.id, .destroyed c.id,
              .created s.nextId, .restored s.nextId]
      ∧ (rerenderB s).1.live = [s.nextId]
      ∧ c.id ≠ s.nextId)
    ∧ ((destroyComponentH t).cmp = none
      ∧ (destroyComponentH t).live = []
      ∧ (destroyComponentH t).restore
          = some
              ({ props := d.captureResult.getD d.ctx,
                 callbacks := d.callbacks })
      ∧ (refreshComponentH t false).2 = .ok true
      ∧ (refreshComponentH t false).1.events
          = t.events ++ [.captured d.id, .destroyed d.id,
              .created t.nextId]
      ∧ (refreshComponentH t false).1.live = [t.nextId]
      ∧ d.id ≠ t.nextId) := by
  constructor
  · refine ⟨?_, ?_, ?_, ?_, ?_, ?_, ?_, ?_, ?_, ?_⟩
    · simp [captureStateStepB, hcmp]
    · simp [captureStateStepB, hcmp]
    · simp [captureStateStepB, hcmp]
    · simp [captureStateStepB, hcmp, hlive]
    · simp [captureStateStepB, destroyComponentB, hcmp]
    · simp [captureStateStepB, destroyComponentB, hcmp, hlive]
    · rw [rerenderB_success_eval s c ip hcmp hip hok]
    · rw [rerenderB_success_eval s c ip hcmp hip hok]
    · rw [rerenderB_success_eval s c ip hcmp hip hok]
      simp [hlive]
    · omega
  · refine ⟨?_, ?_, ?_, ?_, ?_, ?_, ?_⟩
    · simp [destroyComponentH, hcmpH]
    · simp [destroyComponentH, hcmpH, hliveH]
    · simp [destroyComponentH, hcmpH]
    · simp [refreshComponentH, destroyComponentH, createComponentH,
        doCreateComponentH, hcmpH, hokH]
    · simp [refreshComponentH, destroyComponentH, createComponentH,
        doCreateComponentH, hcmpH, hokH]
    · simp [refreshComponentH, destroyComponentH, createComponentH,
        doCreateComponentH, hcmpH, hokH, hliveH]
    · omega

/-- The current implementation of the concrete C3 witness state. -/
def implH0 : ImplH :=
  { ver := 2, ctorOk := true, initialCtx := .obj [],
    captureResult := none, protoMethods := [] }

/-- The live instance of the concrete C3 witness state. -/
def cmpH0 : CmpH :=
  { id := 3, ver := 1, ctx := .obj [], callbacks := .obj [],
    injectCalls := [], captureResult := none, isErrorProxy := false }

/-- A concrete `initProxy`-era state for the C3 witness. -/
def stateH0 : StateH :=
  { proxyRef := 7, proxyMethods := fun _ => .missing,
    component := implH0, cmp := some cmpH0,
    restore := none, live := [3], nextId := 4, events := [], logs := [] }

/-- Witness for C3 on the concrete mounted states of both iterations. -/
theorem C3_destroy_before_create_witness :
    ((destroyComponentB (captureStateStepB stateB0).1).live = []
      ∧ (rerenderB stateB0).1.events
          = stateB0.events ++ [.captured 0, .destroyed 0,
              .created stateB0.nextId, .restored stateB0.nextId])
    ∧ ((destroyComponentH stateH0).live = []
      ∧ (refreshComponentH stateH0 false).2 = .ok true) := by
  have h := C3_destroy_before_create stateB0 cmpB0 1 rfl rfl rfl
    (by simp [stateB0, cmpB0]) (by simp [stateB0, cmpB0])
    stateH0 cmpH0
    rfl rfl (by simp [stateH0, cmpH0]) (by simp [stateH0, cmpH0])
  exact ⟨⟨h.1.2.2.2.2.2.1, h.1.2.2.2.2.2.2.2.1⟩,
    ⟨h.2.2.1, h.2.2.2.2.1⟩⟩

/-! Section: the navigation-stack adapter (claim C8)

Embedding of `ProxyAdapterNative.rerenderNativePage` / `createPage`:

```js
rerenderNativePage() {
  const { nativePageElement: oldPageElement } = this;
  const nativeView = oldPageElement.nativeView;
  const frame = nativeView.frame || nativeView._modalParent;
  if (!frame) { return; }
  const isCurrentPage = frame.currentPage === oldPageElement.nativeView;
  if (isCurrentPage) {
    const newPageElement = this.createPage();
    if (frame.canGoBack()) {
      const currentBackstackEntry = frame._currentEntry;
      frame.navigationType = 2;
      frame.performNavigation({ isBackNavigation: false, entry: {
        resolvedPage: newPageElement.nativeView, ... } });
    } else {
      const nativeView = newPageElement.nativeView;
      frame.navigate({ create: () => nativeView, clearHistory: true });
    }
  } else {
    const backEntry = frame.backStack.find(
      ({ resolvedPage: page }) => page === oldPageElement.nativeView);
    if (!backEntry) { return; }
    const newPageElement = this.createPage();
    backEntry.resolvedPage = newPageElement.nativeView;
  }
}
createPage() {
  const oldNativeView = nativePageElement.nativeView;
  this.destroyComponent(true);
  const target = document.createElement('fragment');
  this.createComponent(target, null);
  this.afterMount(target);
  const newPageElement = this.nativePageElement;
  oldNativeView.off('navigatedFrom', relayNativeNavigatedFrom);
  nativePageElement.nativeView.on('navigatedFrom', relayNativeNavigatedFrom);
  return newPageElement;
}
```

The frame is the host's navigation primitive (`currentPage`, `backStack`,
`canGoBack()`; `performNavigation` replaces the active entry in place,
`navigate({clearHistory:true})` re-navigates wiping the stack); these
external operations are modelled by their documented effect on the frame
plus an entry in the ordered `trace`. -/

/-- A page element rendered into the dummy fragment, with its native view. -/
structure PageElementF where
  id : Nat
  nativeView : Nat
deriving Repr, DecidableEq

/-- A backstack entry of the host frame. -/
structure BackstackEntry where
  resolvedPage : Nat
  /-- opaque bundle for `entry` / `navDepth` / `fragmentTag` / `frameId` -/
  entryData : Nat
deriving Repr, DecidableEq

/-- The host navigation frame. -/
structure FrameF where
  currentPage : Nat
  backStack : List BackstackEntry
  /-- `frame._currentEntry` -/
  currentEntry : BackstackEntry
  navigationType : Nat
deriving Repr, DecidableEq

/-- The host's `frame.canGoBack()`: back history is non-empty. -/
def FrameF.canGoBack (f : FrameF) : Bool := !f.backStack.isEmpty

/-- Ordered observable actions of the native adapter. -/
inductive TraceF where
  | destroyedCmp (id : Nat)
  | createdCmp (id : Nat)
  | intercepted (view : Nat)
  | offNavigatedFrom (view : Nat)
  | onNavigatedFrom (view : Nat)
  | performNavigationReplace (newPage : Nat)
  | navigateClearHistory (newPage : Nat)
  | backstackPatched (oldPage newPage : Nat)
deriving Repr, DecidableEq

/-- Replace `resolvedPage` inside the first matching backstack entry (the
`backEntry.resolvedPage = ...` mutation of the found entry). -/
def patchBackEntry : List BackstackEntry → Nat → Nat → List BackstackEntry
  | [], _, _ => []
  | e :: rest, old, new =>
    if e.resolvedPage = old then { e with resolvedPage := new } :: rest
    else e :: patchBackEntry rest old new

/-- The native adapter's mutable state. -/
structure StateF where
  nativePageElement : Option PageElementF
  cmp : Option CmpB
  component : ImplB
  frame : Option FrameF
  /-- the DOM super-adapter's marker; always absent for page components -/
  insertionPoint : Option Nat
  live : List Nat
  nextId : Nat
  trace : List TraceF

/-- The native adapter's `destroyComponent(removeInsertionPoint = true)`:
destroy the instance and drop the page element reference. -/
def destroyComponentF (s : StateF) : StateF :=
  let s := match s.cmp with
    | some c =>
      { s with
          live := s.live.erase c.id, cmp := none,
          trace := s.trace ++ [TraceF.destroyedCmp c.id] }
    | none => s
  { s with nativePageElement := none }

/-- The instance-level `createComponent(target, null)` for a page
component: construct from the current implementation; the constructor
renders the page element (with a fresh native view) into the fragment
target, which is returned. -/
def createComponentF (s : StateF) : StateF × Except JsError PageElementF :=
  if s.component.ctorOk then
    let cmp : CmpB :=
      { id := s.nextId, ver := s.component.ver,
        ctx := s.component.initialCtx, callbacks := .obj [],
        setCalls := [], updateCalls := 0 }
    let pe : PageElementF := { id := s.nextId + 1, nativeView := s.nextId + 2 }
    ({ s with
        cmp := some cmp, nextId := s.nextId + 3,
        live := s.live ++ [cmp.id],
        trace := s.trace ++ [TraceF.createdCmp cmp.id] }, .ok pe)
  else (s, .error (ctorError s.component.ver))

/-- The native adapter's `afterMount(target)` on a fragment target: record
the rendered page element and intercept its back-navigation listener
registration. -/
def afterMountF (s : StateF) (pe : PageElementF) : StateF :=
  { s with
      nativePageElement := some pe,
      trace := s.trace ++ [TraceF.intercepted pe.nativeView] }

/-- The native adapter's `createPage()`. -/
def createPageF (s : StateF) : StateF × Except JsError PageElementF :=
  match s.nativePageElement with
  | none => (s, .error ⟨"TypeError: no native page element"⟩)
  | some ope =>
    let oldNativeView := ope.nativeView
    let s := destroyComponentF s
    match createComponentF s with
    | (s1, .error e) => (s1, .error e)
    | (s1, .ok pe) =>
      let s2 := afterMountF s1 pe
      ({ s2 with
          trace := s2.trace ++ [TraceF.offNavigatedFrom oldNativeView,
            TraceF.onNavigatedFrom pe.nativeView] }, .ok pe)

/-- The native adapter's `rerenderNativePage()`. -/
def rerenderNativePageF (s : StateF) : StateF × Option JsError :=
  match s.nativePageElement with
  | none => (s, some ⟨"TypeError: no native page element"⟩)
  | some ope =>
    match s.frame with
    | none => (s, none)
    | some frame =>
      if frame.currentPage = ope.nativeView then
        match createPageF s with
        | (s1, .error e) => (s1, some e)
        | (s1, .ok newPageElement) =>
          if frame.canGoBack then
            ({ s1 with
                frame := some
                  { frame with
                      currentPage := newPageElement.nativeView,
                      navigationType := 2 },
                trace := s1.trace
                  ++ [TraceF.performNavigationReplace
                        newPageElement.nativeView] }, none)
          else
            ({ s1 with
                frame := some
                  { frame with
                      currentPage := newPageElement.nativeView,
                      backStack := [] },
                trace := s1.trace
                  ++ [TraceF.navigateClearHistory
                        newPageElement.nativeView] }, none)
      else
        match frame.backStack.find?
            (fun entry => entry.resolvedPage = ope.nativeView) with
        | none => (s, none)
        | some _ =>
          match createPageF s with
          | (s1, .error e) => (s1, some e)
          | (s1, .ok newPageElement) =>
            ({ s1 with
                frame := some
                  { frame with
                      backStack := patchBackEntry frame.backStack
                        ope.nativeView newPageElement.nativeView },
                trace := s1.trace
                  ++ [TraceF.backstackPatched ope.nativeView
                        newPageElement.nativeView] }, none)

/-- C8: when the proxied page is the frame's current page, `rerender`
first recreates the internal instance (`createPage`) and then navigates:
with no back history (sole entry) it takes the clear-history-and-
re-navigate path (`frame.navigate({clearHistory:true})`), not the in-place
entry replacement; when back history exists it takes the in-place
replacement path (`frame.performNavigation`) instead, leaving the back
stack untouched. -/
theorem C8_native_rerender_navigation_paths (s : StateF) (p : PageElementF)
    (f : FrameF) (c : CmpB)
    (h1 : s.nativePageElement = some p) (h2 : s.frame = some f)
    (h3 : f.currentPage = p.nativeView) (h4 : s.cmp = some c)
    (h5 : s.component.ctorOk = true) (hfresh : c.id < s.nextId) :
    (f.backStack = [] →
      (rerenderNativePageF s).2 = none
      ∧ (rerenderNativePageF s).1.trace
          = s.trace ++ [.destroyedCmp c.id, .createdCmp s.nextId,
              .intercepted (s.nextId + 2),
              .offNavigatedFrom p.nativeView,
              .onNavigatedFrom (s.nextId + 2),
              .navigateClearHistory (s.nextId + 2)]
      ∧ (rerenderNativePageF s).1.frame
          = some { f with currentPage := s.nextId + 2, backStack := [] }
      ∧ (∃ c', (rerenderNativePageF s).1.cmp = some c'
          ∧ c'.id = s.nextId ∧ c'.id ≠ c.id))
    ∧ (f.backStack ≠ [] →
      (rerenderNativePageF s).2 = none
      ∧ (rerenderNativePageF s).1.trace
          = s.trace ++ [.destroyedCmp c.id, .createdCmp s.nextId,
              .intercepted (s.nextId + 2),
              .offNavigatedFrom p.nativeView,
              .onNavigatedFrom (s.nextId + 2),
              .performNavigationReplace (s.nextId + 2)]
      ∧ (rerenderNativePageF s).1.frame
          = some { f with currentPage := s.nextId + 2, navigationType := 2 }
      ∧ (∃ c', (rerenderNativePageF s).1.cmp = some c'
          ∧ c'.id = s.nextId ∧ c'.id ≠ c.id)) := by
  constructor
  · intro hempty
    have hcgb : f.canGoBack = false := by
      simp [FrameF.canGoBack, hempty]
    refine ⟨?_, ?_, ?_, ?_⟩ <;>
      simp [rerenderNativePageF, createPageF, destroyComponentF,
        createComponentF, afterMountF, h1, h2, h3, h4, h5, hcgb, hempty] <;>
      omega
  · intro hne
    have hcgb : f.canGoBack = true := by
      obtain ⟨x, xs, hx⟩ := List.exists_cons_of_ne_nil hne
      simp [FrameF.canGoBack, hx]
    refine ⟨?_, ?_, ?_, ?_⟩ <;>
      simp [rerenderNativePageF, createPageF, destroyComponentF,
        createComponentF, afterMountF, h1, h2, h3, h4, h5, hcgb] <;>
      omega

/-- The current backstack entry of the concrete C8 witness frame. -/
def entryF0 : BackstackEntry := { resolvedPage := 101, entryData := 0 }

/-- A concrete sole-entry frame showing page 101 for the C8 witness. -/
def frameF0 : FrameF :=
  { currentPage := 101, backStack := [], currentEntry := entryF0,
    navigationType := 0 }

/-- A concrete native-adapter state: the proxied page is the frame's
current page and the only entry (no back history). -/
def stateF0 : StateF :=
  { nativePageElement := some { id := 100, nativeView := 101 },
    cmp := some cmpB0, component := implB1, frame := some frameF0,
    insertionPoint := none, live := [0], nextId := 5, trace := [] }

/-- Witness for C8: on the sole-entry current page, rerender takes the
clear-history re-navigation path after recreating the instance. -/
theorem C8_native_rerender_navigation_paths_witness :
    (rerenderNativePageF stateF0).2 = none
    ∧ (rerenderNativePageF stateF0).1.trace
        = stateF0.trace ++ [.destroyedCmp 0, .createdCmp stateF0.nextId,
            .intercepted (stateF0.nextId + 2),
            .offNavigatedFrom 101,
            .onNavigatedFrom (stateF0.nextId + 2),
            .navigateClearHistory (stateF0.nextId + 2)] := by
  have h := C8_native_rerender_navigation_paths stateF0
    { id := 100, nativeView := 101 } frameF0 cmpB0
    rfl rfl rfl rfl rfl (by simp [stateF0, cmpB0])
  have ha := h.1 rfl
  exact ⟨ha.1, ha.2.1⟩

/-! Section: `$destroy` idempotence and `unregister` (claim C4)

Embedding of the `initProxy` iteration's registration bookkeeping:

```js
const instances = [];
// in createProxy:
register: rerender => { instances.push(rerender); },
unregister: () => {
  const i = instances.indexOf(this);
  instances.splice(i, 1);
},
// in ProxyComponent:
register(rerender);
this.$destroy = () => {
  destroyComponent();
  adapter.dispose();
  unregister();
};
```

`instances` holds the registered rerender closures, but `unregister`
searches it for `this` — the proxy object, which is never an element — so
`indexOf` returns `-1` and `Array.prototype.splice(-1, 1)` removes the
*last* element of the array.  References are modelled with their `===`
identity (a closure is never identical to a proxy object). -/

/-- A JavaScript reference as compared by `===`. -/
inductive JsRef where
  /-- the rerender closure registered for proxy `pid` -/
  | fnRef (pid : Nat)
  /-- the proxy object `this` of proxy `pid` -/
  | proxyRef (pid : Nat)
deriving Repr, DecidableEq

/-- The `Array.prototype.indexOf` semantics: first strictly-equal index,
else `-1`. -/
def jsIndexOf (l : List JsRef) (x : JsRef) : Int :=
  match l.findIdx? (· = x) with
  | some i => (i : Int)
  | none => -1

/-- The `Array.prototype.splice(start, 1)` semantics: a negative start
counts from the end (clamped at 0), then one element is removed at the
actual start when one exists. -/
def jsSpliceRemoveOne (l : List JsRef) (start : Int) : List JsRef :=
  let len : Int := l.length
  let actualStart : Nat :=
    (if start < 0 then max (len + start) 0 else min start len).toNat
  l.take actualStart ++ l.drop (actualStart + 1)

/-- The factory's `unregister` closure for the proxy object `pid`. -/
def unregister (instances : List JsRef) (pid : Nat) : List JsRef :=
  jsSpliceRemoveOne instances (jsIndexOf instances (.proxyRef pid))

/-- The per-proxy closure state the `$destroy` chain touches. -/
structure ProxyStateC where
  pid : Nat
  cmp : Option CmpH
  restore : Option SnapshotB
  insertionPoint : Option Nat

/-- The `destroyComponent` body (tolerant of a missing instance). -/
def destroyComponentC (p : ProxyStateC) : ProxyStateC :=
  match p.cmp with
  | some c =>
    { p with
        restore := some
          ({ props := c.captureResult.getD c.ctx,
             callbacks := c.callbacks }),
        cmp := none }
  | none => { p with cmp := none }

/-- The DOM adapter's `dispose()` for this proxy. -/
def disposeC (p : ProxyStateC) (dom : Dom) : ProxyStateC × Dom :=
  match p.insertionPoint with
  | some m => ({ p with insertionPoint := none }, domRemoveElement dom m)
  | none => (p, dom)

/-- The augmented `$destroy`: destroy the instance, dispose the marker,
unregister from the factory's instance list. -/
def dollarDestroyC (p : ProxyStateC) (dom : Dom)
    (instances : List JsRef) : ProxyStateC × Dom × List JsRef :=
  let p := destroyComponentC p
  let pd := disposeC p dom
  (pd.1, pd.2, unregister instances pd.1.pid)

/-- The second live proxy (B) of the C4 failing input. -/
def proxyC1 : ProxyStateC :=
  { pid := 1, cmp := some cmpH0, restore := none,
    insertionPoint := some 5 }

/-- First `$destroy()` of proxy B with proxies A (pid 0) and B (pid 1)
registered, B's marker node 5 under host node 10. -/
def destroyOnceC : ProxyStateC × Dom × List JsRef :=
  dollarDestroyC proxyC1 [(10, [5])] [.fnRef 0, .fnRef 1]

/-- Second `$destroy()` of proxy B, starting from the state the first call
left behind. -/
def destroyTwiceC : ProxyStateC × Dom × List JsRef :=
  dollarDestroyC destroyOnceC.1 destroyOnceC.2.1 destroyOnceC.2.2

/-- C4 evaluated at the failing input: after the first `$destroy()` of
proxy B the instance list still holds proxy A's registration, but the
second `$destroy()` removes it too (`indexOf(this)` is `-1` because the
list holds rerender closures, and `splice(-1, 1)` drops the last element),
so the registration list differs after the second call — while the other
observables (no instance, marker gone from the host tree) are indeed
unchanged. -/
theorem C4_destroy_twice_removes_other_registration :
    destroyOnceC.2.2 = [.fnRef 0]
    ∧ destroyTwiceC.2.2 = []
    ∧ destroyTwiceC.2.2 ≠ destroyOnceC.2.2
    ∧ destroyOnceC.1.cmp = none ∧ destroyTwiceC.1.cmp = none
    ∧ destroyOnceC.1.insertionPoint = none
    ∧ destroyTwiceC.1.insertionPoint = none
    ∧ destroyOnceC.2.1 = [(10, [])] ∧ destroyTwiceC.2.1 = [(10, [])] := by
  refine ⟨rfl, rfl, by decide, rfl, rfl, rfl, rfl, rfl, rfl⟩
